import Mathlib

/-!
Verification development for the PtX action-resolution engine.

Python floats are modelled as rationals (`ℚ`); Python dictionaries that are
iterated in insertion order are modelled as association lists, so that the
fixed iteration order of the source is preserved.  Where the source would
raise a `KeyError` on a missing name the embedding resolves the name to a
zero-initialised commodity; the project loader validates at construction
time that every referenced name exists, so the two semantics agree on every
reachable configuration.  Rational division by zero yields zero in Lean; the
source would raise there, and no theorem below depends on such a state.
-/

namespace PtxRL

/-- Commodity record, embedded from the constructor of
`src/src/rlptx/ptx/commodity.py` (the same numeric fields appear in
`src/ptx/commodity.py`).  All flow counters and prices are rationals. -/
structure Commodity where
  name : String
  commodity_unit : String := ""
  emittable : Bool := false
  available : Bool := false
  purchasable : Bool := false
  purchase_price : ℚ := 0
  saleable : Bool := false
  sale_price : ℚ := 0
  demanded : Bool := false
  demand : ℚ := 0
  is_total_demand : Bool := false
  purchased_quantity : ℚ := 0
  purchase_costs : ℚ := 0
  sold_quantity : ℚ := 0
  selling_revenue : ℚ := 0
  emitted_quantity : ℚ := 0
  available_quantity : ℚ := 0
  demanded_quantity : ℚ := 0
  charged_quantity : ℚ := 0
  discharged_quantity : ℚ := 0
  total_storage_costs : ℚ := 0
  consumed_quantity : ℚ := 0
  produced_quantity : ℚ := 0
  total_production_costs : ℚ := 0
  generated_quantity : ℚ := 0
  total_generation_costs : ℚ := 0
  deriving DecidableEq

/-- Conversion component record, embedded from `src/ptx/component.py`.
`inputs` and `outputs` keep the declaration order of the source
dictionaries. -/
structure ConversionComponent where
  name : String
  variable_om : ℚ := 0
  fixed_capacity : ℚ := 0
  total_variable_costs : ℚ := 0
  ramp_down : ℚ := 1
  ramp_up : ℚ := 1
  min_p : ℚ := 0
  max_p : ℚ := 1
  load : ℚ := 0
  inputs : List (String × ℚ) := []
  outputs : List (String × ℚ) := []
  main_input : String := ""
  main_output : String := ""
  consumed_commodities : List (String × ℚ) := []
  produced_commodities : List (String × ℚ) := []
  deriving DecidableEq

/-- Storage component record, embedded from `src/ptx/component.py`. -/
structure StorageComponent where
  name : String
  variable_om : ℚ := 0
  fixed_capacity : ℚ := 0
  total_variable_costs : ℚ := 0
  charging_efficiency : ℚ := 1
  discharging_efficiency : ℚ := 1
  ratio_capacity_p : ℚ := 1
  min_soc : ℚ := 0
  max_soc : ℚ := 1
  stored_commodity : String := ""
  charge_state : ℚ := 0
  charged_quantity : ℚ := 0
  discharged_quantity : ℚ := 0
  deriving DecidableEq

/-- Generation component record, embedded from `src/ptx/component.py`. -/
structure GenerationComponent where
  name : String
  variable_om : ℚ := 0
  fixed_capacity : ℚ := 0
  total_variable_costs : ℚ := 0
  generated_commodity : String := "Electricity"
  curtailment_possible : Bool := true
  potential_generation_quantity : ℚ := 0
  generated_quantity : ℚ := 0
  curtailment : ℚ := 0
  deriving DecidableEq

/-- A component of the system, one of the three concrete variants. -/
inductive PComponent where
  | conversion (c : ConversionComponent)
  | storage (c : StorageComponent)
  | generator (c : GenerationComponent)
  deriving DecidableEq

/-- The PtX system, embedded from `src/src/rlptx/ptx/framework.py`.
`previous_balance` is an `Option` because the Python attribute is created
only by the first assignment to it; `none` models the unset attribute.
The external weather provider is modelled as a table of the current
per-generator weather coefficients. -/
structure PtxSystem where
  project_name : String := ""
  starting_budget : ℚ := 0
  balance : ℚ := 0
  previous_balance : Option ℚ := none
  current_step : Nat := 0
  commodities : List (String × Commodity) := []
  components : List (String × PComponent) := []
  weather : List (String × ℚ) := []
  deriving DecidableEq

/-- Replace the value bound to a key in an association list (Python dict
assignment for an existing key, no-op for a missing key). -/
def updateAssoc {α : Type} (l : List (String × α)) (k : String) (v : α) :
    List (String × α) :=
  match l with
  | [] => []
  | (k', v') :: rest =>
      if k' = k then (k', v) :: rest else (k', v') :: updateAssoc rest k v

/-- Add `v` to the value bound to `k`, inserting the binding when absent
(the source initialises these dictionaries with zero entries). -/
def bumpAssoc (l : List (String × ℚ)) (k : String) (v : ℚ) :
    List (String × ℚ) :=
  match l with
  | [] => [(k, v)]
  | (k', v') :: rest =>
      if k' = k then (k', v' + v) :: rest else (k', v') :: bumpAssoc rest k v

/-- Look up a commodity by name (`ptx_system.commodities[name]`). -/
def PtxSystem.getCommodity (s : PtxSystem) (n : String) : Commodity :=
  match s.commodities.lookup n with
  | some c => c
  | none => { name := n }

/-- Write back a commodity object (the source mutates the shared object). -/
def PtxSystem.setCommodity (s : PtxSystem) (n : String) (c : Commodity) :
    PtxSystem :=
  { s with commodities := updateAssoc s.commodities n c }

/-- Current weather coefficient of a generator
(`ptx_system.get_current_weather_coefficient(name)`). -/
def PtxSystem.getWeather (s : PtxSystem) (n : String) : ℚ :=
  match s.weather.lookup n with
  | some w => w
  | none => 0

/-- Look up a conversion component by name. -/
def PtxSystem.getConversion (s : PtxSystem) (n : String) : ConversionComponent :=
  match s.components.lookup n with
  | some (PComponent.conversion c) => c
  | _ => { name := n }

/-- Write back a conversion component. -/
def PtxSystem.setConversion (s : PtxSystem) (n : String)
    (c : ConversionComponent) : PtxSystem :=
  { s with components := updateAssoc s.components n (PComponent.conversion c) }

/-- `PtxSystem.set_initial_balance`, embedded from
`src/src/rlptx/ptx/framework.py` lines 34 to 36: it assigns `balance` and
`starting_budget` and nothing else. -/
def PtxSystem.set_initial_balance (s : PtxSystem) (balance : ℚ) : PtxSystem :=
  { s with balance := balance, starting_budget := balance }

/-- `PtxSystem.__init__`, embedded from `src/src/rlptx/ptx/framework.py`
lines 7 to 32.  The constructor stores the arguments and calls
`set_initial_balance`; no statement of the constructor assigns
`previous_balance`, which the embedding records as `none`. -/
def PtxSystem.init (project_name : String) (starting_budget : ℚ)
    (current_step : Nat) (commodities : List (String × Commodity))
    (components : List (String × PComponent)) : PtxSystem :=
  PtxSystem.set_initial_balance
    { project_name := project_name
      starting_budget := starting_budget
      balance := 0
      previous_balance := none
      current_step := current_step
      commodities := commodities
      components := components
      weather := [] }
    starting_budget

/-- `PtxSystem.next_step`, embedded from `src/src/rlptx/ptx/framework.py`
lines 38 to 43.  The method increments the step counter, then reads
`self.previous_balance` before assigning it; when the attribute has never
been assigned the read raises `AttributeError`, modelled as
`Except.error`. -/
def PtxSystem.next_step (s : PtxSystem) : Except String (PtxSystem × ℚ) :=
  let s := { s with current_step := s.current_step + 1 }
  match s.previous_balance with
  | none =>
      Except.error "AttributeError: PtxSystem object has no attribute"
  | some old_balance =>
      Except.ok ({ s with previous_balance := some s.balance },
                 s.balance - old_balance)

/-- Result of a two-phase calculate call: the commodity and system are
returned unchanged alongside the candidate values, the status text, the
succeeded flag and the exact-completion flag, mirroring the source which
computes values without assigning to any object attribute. -/
structure CalcResult (α : Type) where
  commodity : Commodity
  system : PtxSystem
  values : α
  status : String
  succeeded : Bool
  exact_completion : Bool
  deriving DecidableEq

/-- `Commodity.purchase_commodity`, embedded from
`src/src/rlptx/ptx/commodity.py` lines 82 to 108 (calculate phase only;
the method performs no assignment to the commodity, the system or the
ledger). -/
def Commodity.purchase_commodity (c : Commodity) (quantity : ℚ)
    (s : PtxSystem) : CalcResult (ℚ × ℚ) :=
  if quantity < 0 then
    ⟨c, s, (0, 0), "cannot purchase a negative quantity.", true, false⟩
  else
    let cost := quantity * c.purchase_price
    if cost > s.balance then
      let new_quantity := s.balance / c.purchase_price
      let new_cost := new_quantity * c.purchase_price
      ⟨c, s, (new_quantity, new_cost),
       "purchase clamped to the available balance.", true, false⟩
    else
      ⟨c, s, (quantity, cost), "purchased as requested.", true, true⟩

/-- `Commodity.sell_commodity`, embedded from
`src/src/rlptx/ptx/commodity.py` lines 110 to 134. -/
def Commodity.sell_commodity (c : Commodity) (quantity : ℚ)
    (s : PtxSystem) : CalcResult (ℚ × ℚ) :=
  if quantity < 0 then
    ⟨c, s, (0, 0), "cannot sell a negative quantity.", true, false⟩
  else if quantity > c.available_quantity then
    ⟨c, s, (c.available_quantity, c.available_quantity * c.sale_price),
     "sale clamped to the available quantity.", true, false⟩
  else
    ⟨c, s, (quantity, quantity * c.sale_price),
     "sold as requested.", true, true⟩

/-- `Commodity.emit_commodity`, embedded from
`src/src/rlptx/ptx/commodity.py` lines 136 to 157. -/
def Commodity.emit_commodity (c : Commodity) (quantity : ℚ)
    (s : PtxSystem) : CalcResult ℚ :=
  if quantity < 0 then
    ⟨c, s, 0, "cannot emit a negative quantity.", true, false⟩
  else if quantity > c.available_quantity then
    ⟨c, s, c.available_quantity,
     "emission clamped to the available quantity.", true, false⟩
  else
    ⟨c, s, quantity, "emitted as requested.", true, true⟩

/-- `ConversionComponent._handle_ramp_up`, embedded from
`src/ptx/component.py` lines 171 to 200.  Clamps the requested increase to
`ramp_up` and `max_p`, then walks the inputs in declaration order and, when
the projected consumption exceeds an input's stock, adapts the capacity to
`min(available / ratio, current_capacity)`. -/
def ConversionComponent.handle_ramp_up (cc : ConversionComponent)
    (quantity₀ current_capacity : ℚ) (s : PtxSystem) (status₀ : String) :
    ℚ × String × ℚ :=
  let (quantity, status) :=
    if quantity₀ > cc.ramp_up then
      (cc.ramp_up, status₀ ++ " quantity clamped to the ramp up limit.")
    else (quantity₀, status₀)
  let new_load := cc.load + quantity
  let (quantity, status, new_load) :=
    if new_load > cc.max_p then
      let new_quantity := cc.max_p - cc.load
      (new_quantity, status ++ " load clamped to max power.",
       cc.load + new_quantity)
    else (quantity, status, new_load)
  let new_capacity := cc.fixed_capacity * new_load
  let step := fun (acc : ℚ × ℚ × ℚ × String) (inp : String × ℚ) =>
    let (new_capacity, new_load, quantity, status) := acc
    let avail := (s.getCommodity inp.1).available_quantity
    if new_capacity * inp.2 > avail then
      let adapted_capacity := min (avail / inp.2) current_capacity
      let adapted_load := adapted_capacity / cc.fixed_capacity
      let adapted_quantity := adapted_load - cc.load
      (adapted_capacity, adapted_load, adapted_quantity,
       status ++ " ramp up reduced, input not available.")
    else acc
  let folded := cc.inputs.foldl step (new_capacity, new_load, quantity, status)
  (folded.2.2.1, folded.2.2.2, folded.2.1)

/-- `ConversionComponent._handle_ramp_down`, embedded from
`src/ptx/component.py` lines 202 to 232, including two faithful oddities of
the source: after the `min_p` check the new load is recomputed from the old
reduction quantity, and an input-availability adaptation stores the signed
`adapted_quantity` into the (otherwise positive) reduction quantity. -/
def ConversionComponent.handle_ramp_down (cc : ConversionComponent)
    (reduction₀ : ℚ) (s : PtxSystem) (status₀ : String) : String × ℚ × ℚ :=
  let (reduction, status) :=
    if reduction₀ > cc.ramp_down then
      (cc.ramp_down, status₀ ++ " quantity clamped to the ramp down limit.")
    else (reduction₀, status₀)
  let new_load := cc.load - reduction
  let (reduction, status, new_load) :=
    if new_load < cc.min_p then
      let new_reduction := cc.load - cc.min_p
      (new_reduction, status ++ " load clamped to min power.",
       cc.load - reduction)
    else (reduction, status, new_load)
  let new_capacity := cc.fixed_capacity * new_load
  let potential_min_capacity :=
    min (cc.load - cc.ramp_down) cc.min_p * cc.fixed_capacity
  let step := fun (acc : ℚ × ℚ × ℚ × String) (inp : String × ℚ) =>
    let (new_capacity, new_load, reduction, status) := acc
    let avail := (s.getCommodity inp.1).available_quantity
    if new_capacity * inp.2 > avail then
      let adapted_capacity := min (avail / inp.2) potential_min_capacity
      let adapted_load := adapted_capacity / cc.fixed_capacity
      let adapted_quantity := adapted_load - cc.load
      (adapted_capacity, adapted_load, adapted_quantity,
       status ++ " ramp down increased, input not available.")
    else acc
  let folded := cc.inputs.foldl step (new_capacity, new_load, reduction, status)
  (folded.2.2.2, folded.2.1, folded.2.2.1)

/-- The commodity-conversion loop of `ConversionComponent.ramp_up_or_down`
(`src/ptx/component.py` lines 145 to 157): inputs are debited one after
another and the loop aborts with a failure flag as soon as one input's
required amount exceeds its stock; debits already made are kept. -/
def ConversionComponent.convert_inputs (cc : ConversionComponent)
    (s : PtxSystem) (inputs : List (String × ℚ)) (capacity cost : ℚ)
    (status : String) : ConversionComponent × PtxSystem × String × Bool :=
  match inputs with
  | [] => (cc, s, status, true)
  | (nm, r) :: rest =>
      let c := s.getCommodity nm
      let amount := r * capacity
      if amount > c.available_quantity then
        (cc, s, status ++ " conversion failed, input not available.", false)
      else
        let c :=
          { c with
            available_quantity := c.available_quantity - amount
            consumed_quantity := c.consumed_quantity + amount
            total_production_costs :=
              if nm = cc.main_input then c.total_production_costs + cost
              else c.total_production_costs }
        let s := s.setCommodity nm c
        let cc :=
          { cc with
            consumed_commodities := bumpAssoc cc.consumed_commodities nm amount }
        ConversionComponent.convert_inputs cc s rest capacity cost
          (status ++ " input consumed in conversion.")

/-- The output-production loop of `ConversionComponent.ramp_up_or_down`
(`src/ptx/component.py` lines 158 to 163). -/
def ConversionComponent.produce_outputs (cc : ConversionComponent)
    (s : PtxSystem) (outputs : List (String × ℚ)) (capacity : ℚ)
    (status : String) : ConversionComponent × PtxSystem × String :=
  match outputs with
  | [] => (cc, s, status)
  | (nm, r) :: rest =>
      let c := s.getCommodity nm
      let amount := r * capacity
      let c :=
        { c with
          available_quantity := c.available_quantity + amount
          produced_quantity := c.produced_quantity + amount }
      let s := s.setCommodity nm c
      let cc :=
        { cc with
          produced_commodities := bumpAssoc cc.produced_commodities nm amount }
      ConversionComponent.produce_outputs cc s rest capacity
        (status ++ " output produced in conversion.")

/-- `ConversionComponent.ramp_up_or_down`, embedded from
`src/ptx/component.py` lines 85 to 169.  The method clamps the requested
load change against the balance, the ramp limits, the power bounds and the
input stocks, then converts commodities and mutates the component, the
commodities and the ledger in the same call.  The returned flag is the
success flag of the source. -/
def ConversionComponent.ramp_up_or_down (cc : ConversionComponent)
    (quantity₀ : ℚ) (s : PtxSystem) :
    ConversionComponent × PtxSystem × String × Bool :=
  let main_coeff :=
    match cc.inputs.lookup cc.main_input with
    | some r => r
    | none => 0
  let current_capacity := cc.load * cc.fixed_capacity
  let status := "in conversion component:"
  let potential_max_cost := current_capacity * main_coeff * cc.variable_om
  let (quantity, status) :=
    if potential_max_cost > s.balance then
      let new_capacity := s.balance / (main_coeff * cc.variable_om)
      let new_load := new_capacity / cc.fixed_capacity
      (new_load - cc.load,
       status ++ " quantity reduced so the cost fits the balance.")
    else (quantity₀, status)
  let (quantity, status, new_load) :=
    if quantity > 0 then
      cc.handle_ramp_up quantity current_capacity s status
    else if quantity < 0 then
      let (status, new_load, reduction) :=
        cc.handle_ramp_down (-quantity) s status
      (-reduction, status, new_load)
    else
      (quantity, status ++ " no ramp up or down of the load.", cc.load)
  let current_capacity := new_load * cc.fixed_capacity
  let cost := current_capacity * main_coeff * cc.variable_om
  if cost > s.balance then
    (cc, s, status ++ " conversion failed, cost above balance.", false)
  else
    match cc.convert_inputs s cc.inputs current_capacity cost status with
    | (cc, s, status, false) => (cc, s, status, false)
    | (cc, s, status, true) =>
        let (cc, s, status) :=
          cc.produce_outputs s cc.outputs current_capacity status
        ({ cc with
           load := cc.load + quantity
           total_variable_costs := cc.total_variable_costs + cost },
         { s with balance := s.balance - cost }, status, true)

/-- `StorageComponent._handle_charge`, embedded from `src/ptx/component.py`
lines 435 to 471.  `quantity` is the raw input drawn from the commodity,
`actual_quantity` the amount stored after applying the charging
efficiency; the clamps run in the fixed source order: per-step rate, free
storage, available commodity, affordability. -/
def StorageComponent.handle_charge (sc : StorageComponent)
    (quantity₀ free_storage balance available_quantity
     max_possible_amount : ℚ) (status₀ : String) : ℚ × ℚ × ℚ × String :=
  let actual := quantity₀ * sc.charging_efficiency
  let (quantity, actual, status) :=
    if actual > max_possible_amount then
      (max_possible_amount / sc.charging_efficiency, max_possible_amount,
       status₀ ++ "charge clamped to the per step maximum. ")
    else (quantity₀, actual, status₀)
  let (quantity, actual, status) :=
    if actual > free_storage then
      (free_storage / sc.charging_efficiency, free_storage,
       status ++ "charge clamped to the free storage capacity. ")
    else (quantity, actual, status)
  let (quantity, actual, status) :=
    if quantity > available_quantity then
      (available_quantity, available_quantity * sc.charging_efficiency,
       status ++ "charge clamped to the available quantity. ")
    else (quantity, actual, status)
  let cost := quantity * sc.variable_om
  let (quantity, actual, cost, status) :=
    if cost > balance then
      (balance / sc.variable_om,
       balance / sc.variable_om * sc.charging_efficiency, balance,
       status ++ "charge clamped to the balance. ")
    else (quantity, actual, cost, status)
  (quantity, actual, cost, status)

/-- `StorageComponent._handle_discharge`, embedded from
`src/ptx/component.py` lines 473 to 493.  `actual_quantity` is the
requested delivered output and `discharge_quantity` the raw amount removed
from storage (`actual / discharging_efficiency`); the two clamps check the
per-step rate and the amount above the minimum state of charge. -/
def StorageComponent.handle_discharge (sc : StorageComponent)
    (min_charge dischargeable_quantity max_possible_amount
     discharge_quantity₀ : ℚ) (status₀ : String) : ℚ × ℚ × String :=
  let actual := discharge_quantity₀
  let discharge_quantity := actual / sc.discharging_efficiency
  let (actual, discharge_quantity, status) :=
    if discharge_quantity > max_possible_amount then
      (discharge_quantity * sc.discharging_efficiency, max_possible_amount,
       status₀ ++ "discharge clamped to the per step maximum. ")
    else (actual, discharge_quantity, status₀)
  let (actual, discharge_quantity, status) :=
    if sc.charge_state - discharge_quantity < min_charge then
      (dischargeable_quantity * sc.discharging_efficiency,
       dischargeable_quantity,
       status ++ "discharge clamped to the dischargeable quantity. ")
    else (actual, discharge_quantity, status)
  (actual, discharge_quantity, status)

/-- `StorageComponent.charge_or_discharge_quantity`, embedded from
`src/ptx/component.py` lines 370 to 433.  A zero quantity returns early
with a status and a `true` flag; positive quantities charge and negative
quantities discharge, both ending in the shared commit that updates the
charge state, the commodity stock and counters, and the ledger. -/
def StorageComponent.charge_or_discharge_quantity (sc : StorageComponent)
    (quantity₀ : ℚ) (s : PtxSystem) :
    StorageComponent × PtxSystem × String × Bool :=
  if quantity₀ = 0 then
    (sc, s, "no quantity charged or discharged.", true)
  else
    let commodity := s.getCommodity sc.stored_commodity
    let max_charge := sc.fixed_capacity * sc.max_soc
    let min_charge := sc.fixed_capacity * sc.min_soc
    let free_storage := max_charge - sc.charge_state
    let dischargeable_quantity := max 0 (sc.charge_state - min_charge)
    let max_possible_amount := sc.fixed_capacity * sc.ratio_capacity_p
    if quantity₀ > 0 then
      if sc.charge_state ≥ max_charge then
        (sc, s, "cannot charge, the storage is full.", true)
      else if commodity.available_quantity ≤ 0 then
        (sc, s, "cannot charge, none of the commodity is available.", true)
      else
        let (quantity, actual, cost, status) :=
          sc.handle_charge quantity₀ free_storage s.balance
            commodity.available_quantity max_possible_amount ""
        let sc := { sc with charged_quantity := sc.charged_quantity + actual }
        let commodity :=
          { commodity with
            charged_quantity := commodity.charged_quantity + actual }
        let sc :=
          { sc with
            charge_state := sc.charge_state + actual
            total_variable_costs := sc.total_variable_costs + cost }
        let commodity :=
          { commodity with
            available_quantity := commodity.available_quantity - quantity
            total_storage_costs := commodity.total_storage_costs + cost }
        let s := s.setCommodity sc.stored_commodity commodity
        (sc, { s with balance := s.balance - cost },
         status ++ "finally charge.", true)
    else
      let discharge_quantity := -quantity₀
      if sc.charge_state ≤ min_charge then
        (sc, s, "cannot discharge, the storage is empty.", true)
      else
        let (actual₁, discharge_quantity, status) :=
          sc.handle_discharge min_charge dischargeable_quantity
            max_possible_amount discharge_quantity ""
        let quantity := -discharge_quantity
        let actual := -actual₁
        let sc :=
          { sc with discharged_quantity := sc.discharged_quantity + actual }
        let commodity :=
          { commodity with
            discharged_quantity := commodity.discharged_quantity + actual }
        let cost : ℚ := 0
        let sc :=
          { sc with
            charge_state := sc.charge_state + actual
            total_variable_costs := sc.total_variable_costs + cost }
        let commodity :=
          { commodity with
            available_quantity := commodity.available_quantity - quantity
            total_storage_costs := commodity.total_storage_costs + cost }
        let s := s.setCommodity sc.stored_commodity commodity
        (sc, { s with balance := s.balance - cost },
         status ++ "finally discharge.", true)

/-- `GenerationComponent.apply_or_strip_curtailment`, embedded from
`src/ptx/component.py` lines 549 to 617.  Positive quantities increase
curtailment, negative quantities strip it; the resulting `generated`
amount and its cost are committed to the component, the generated
commodity and the ledger, after a final affordability re-curtailment. -/
def GenerationComponent.apply_or_strip_curtailment (gc : GenerationComponent)
    (quantity₀ : ℚ) (s : PtxSystem) :
    GenerationComponent × PtxSystem × String × Bool :=
  let potential_max_generation := gc.fixed_capacity - gc.curtailment
  let possible_current_generation := s.getWeather gc.name * gc.fixed_capacity
  let (quantity, generated, status) :=
    if quantity₀ > 0 then
      if quantity₀ > potential_max_generation then
        (potential_max_generation, (0 : ℚ),
         "curtail completely, generating nothing")
      else
        (quantity₀,
         min possible_current_generation
           (potential_max_generation - quantity₀),
         "curtail part of the current potential production")
    else if quantity₀ < 0 then
      let curtail_strip_quantity := -quantity₀
      if curtail_strip_quantity > gc.curtailment then
        (-gc.curtailment, possible_current_generation,
         "remove the curtailment completely")
      else
        (quantity₀,
         possible_current_generation - gc.curtailment
           + curtail_strip_quantity,
         "remove part of the curtailment")
    else
      (quantity₀, possible_current_generation - gc.curtailment,
       "no curtailment applied or stripped")
  let cost := generated * gc.variable_om
  let (quantity, generated, cost, status) :=
    if cost > s.balance then
      let new_generated := s.balance / gc.variable_om
      (max quantity
         (possible_current_generation - gc.curtailment - new_generated),
       new_generated, s.balance,
       status ++ ", re-curtailed so the cost fits the balance.")
    else (quantity, generated, cost, status ++ " for the computed cost.")
  let gc :=
    { gc with
      generated_quantity := gc.generated_quantity + generated
      potential_generation_quantity :=
        gc.potential_generation_quantity + possible_current_generation
      curtailment := gc.curtailment + quantity
      total_variable_costs := gc.total_variable_costs + cost }
  let commodity := s.getCommodity gc.generated_commodity
  let commodity :=
    { commodity with
      available_quantity := commodity.available_quantity + generated
      generated_quantity := commodity.generated_quantity + generated
      total_generation_costs := commodity.total_generation_costs + cost }
  let s := s.setCommodity gc.generated_commodity commodity
  (gc, { s with balance := s.balance - cost }, status, true)

/-- Candidate values of a two-phase conversion ramp calculate: the clamped
load change, the production cost, and the per-input and per-output amounts
at the resulting capacity (the value shape asserted by
`src/tests/test_ptx_component.py`). -/
structure RampValues where
  quantity : ℚ
  cost : ℚ
  input_values : List (String × ℚ)
  output_values : List (String × ℚ)
  deriving DecidableEq

/-- Modelled from the spec: the two-phase calculate of
`ConversionComponent.ramp_up_or_down` (module `rlptx.ptx.component`) is not
present under `src/`, only its tests and its caller are; this definition
follows section 4.3 of the spec.  Step 1 pre-clamps the request so the
worst-case cost at the pre-ramp capacity fits the balance; step 2 clamps
against the ramp limit and the power bound of the requested direction;
step 3 walks the inputs in declaration order and tightens the load toward
the previous load when a projected consumption exceeds that input's stock;
step 4 fails outright when the final cost still exceeds the balance;
step 5 fails outright when some input's final consumption still exceeds
its stock.  `exact_completion` holds only when the final load change
equals the originally requested one. -/
def ramp_calculate (cc : ConversionComponent) (delta₀ : ℚ) (s : PtxSystem) :
    RampValues × String × Bool × Bool :=
  let main_coeff :=
    match cc.inputs.lookup cc.main_input with
    | some r => r
    | none => 0
  let current_capacity := cc.load * cc.fixed_capacity
  let potential_max_cost := current_capacity * main_coeff * cc.variable_om
  let delta :=
    if potential_max_cost > s.balance then
      s.balance / (main_coeff * cc.variable_om) / cc.fixed_capacity - cc.load
    else delta₀
  let new_load :=
    if delta > 0 then min (cc.load + min delta cc.ramp_up) cc.max_p
    else if delta < 0 then max (cc.load + max delta (-cc.ramp_down)) cc.min_p
    else cc.load
  let tighten := fun (nl : ℚ) (inp : String × ℚ) =>
    let avail := (s.getCommodity inp.1).available_quantity
    if nl * cc.fixed_capacity * inp.2 > avail then
      let candidate := avail / (inp.2 * cc.fixed_capacity)
      if nl ≥ cc.load then max cc.load (min nl candidate)
      else min cc.load (max nl candidate)
    else nl
  let new_load := cc.inputs.foldl tighten new_load
  let final_delta := new_load - cc.load
  let cost := new_load * cc.fixed_capacity * main_coeff * cc.variable_om
  if cost > s.balance then
    (⟨0, 0, [], []⟩, "conversion failed, cost above balance.", false, false)
  else if cc.inputs.any fun inp =>
      inp.2 * new_load * cc.fixed_capacity
        > (s.getCommodity inp.1).available_quantity then
    (⟨0, 0, [], []⟩, "conversion failed, input not available.", false, false)
  else
    let input_values :=
      cc.inputs.map fun inp => (inp.1, inp.2 * new_load * cc.fixed_capacity)
    let output_values :=
      cc.outputs.map fun outp => (outp.1, outp.2 * new_load * cc.fixed_capacity)
    (⟨final_delta, cost, input_values, output_values⟩,
     "ramp calculated.", true, decide (final_delta = delta₀))

/-- Modelled from the spec: the apply phase of the two-phase conversion
ramp (module `rlptx.ptx.component`, absent from `src/`), following the
apply sentence of section 4.3: debit the inputs, credit the outputs, add
the production cost to the main-output commodity, update the load,
accumulate the variable costs and debit the balance. -/
def ramp_apply (cc : ConversionComponent) (v : RampValues) (s : PtxSystem) :
    ConversionComponent × PtxSystem :=
  let debit := fun (acc : ConversionComponent × PtxSystem) (iv : String × ℚ) =>
    let (cc, s) := acc
    let c := s.getCommodity iv.1
    let c :=
      { c with
        available_quantity := c.available_quantity - iv.2
        consumed_quantity := c.consumed_quantity + iv.2 }
    ({ cc with
       consumed_commodities := bumpAssoc cc.consumed_commodities iv.1 iv.2 },
     s.setCommodity iv.1 c)
  let credit := fun (acc : ConversionComponent × PtxSystem) (ov : String × ℚ) =>
    let (cc, s) := acc
    let c := s.getCommodity ov.1
    let c :=
      { c with
        available_quantity := c.available_quantity + ov.2
        produced_quantity := c.produced_quantity + ov.2
        total_production_costs :=
          if ov.1 = cc.main_output then c.total_production_costs + v.cost
          else c.total_production_costs }
    ({ cc with
       produced_commodities := bumpAssoc cc.produced_commodities ov.1 ov.2 },
     s.setCommodity ov.1 c)
  let (cc, s) := v.input_values.foldl debit (cc, s)
  let (cc, s) := v.output_values.foldl credit (cc, s)
  ({ cc with
     load := cc.load + v.quantity
     total_variable_costs := cc.total_variable_costs + v.cost },
   { s with balance := s.balance - v.cost })

/-- The running best fallback candidate of the conversion dispatch loop:
the item with the lowest deviation seen so far together with its last
calculated values, status and success flag
(`lowest_quantity_deviation_item` and `last_return_value` in
`src/environment.py`). -/
structure DispatchBest where
  item : String × ℚ
  dev : ℚ
  values : RampValues
  status : String
  success : Bool
  deriving DecidableEq

/-- One `for item in conversion_eavs` pass of the inner sweep of
`PtxEnvironment._handle_conversion_action_method_execution`
(`src/environment.py` lines 285 to 309), with the iterator semantics of
the source: removing the current item shifts the list left while the loop
index still advances, so the element after a removed one is skipped for
the rest of the pass.  Exactly completable items are applied and removed;
the others update the lowest-deviation candidate. -/
def innerSweepPass (s : PtxSystem) (items : List (String × ℚ)) (i : Nat)
    (best : Option DispatchBest) (progress : Bool)
    (infos : List (String × String)) (total : Bool) :
    PtxSystem × List (String × ℚ) × Option DispatchBest × Bool
      × List (String × String) × Bool :=
  if h : i < items.length then
    let item := items.get ⟨i, h⟩
    let cc := s.getConversion item.1
    let (values, status, success, exact) := ramp_calculate cc item.2 s
    if exact then
      let (cc, s') := ramp_apply cc values s
      let s' := s'.setConversion item.1 cc
      innerSweepPass s' (items.eraseIdx i) (i + 1) best true
        (infos ++ [(item.1, status)]) (total && success)
    else
      let d := values.quantity - item.2
      let dev := if d < 0 then -d else d
      let best :=
        match best with
        | none => some ⟨item, dev, values, status, success⟩
        | some b =>
            if dev < b.dev then some ⟨item, dev, values, status, success⟩
            else some b
      innerSweepPass s items (i + 1) best progress infos total
  else (s, items, best, progress, infos, total)
termination_by items.length - i
decreasing_by
  · simp [List.length_eraseIdx, h]
    omega
  · omega

/-- The `while True` repeat of the inner sweep (`src/environment.py` lines
285 to 309): passes are repeated until one makes no progress; the
lowest-deviation candidate persists across passes of the same outer
iteration.  The fuel bounds the number of passes; each continued pass has
removed at least one item, so `items.length + 1` passes always suffice. -/
def innerSweep (fuel : Nat) (s : PtxSystem) (items : List (String × ℚ))
    (best : Option DispatchBest) (infos : List (String × String))
    (total : Bool) :
    PtxSystem × List (String × ℚ) × Option DispatchBest
      × List (String × String) × Bool :=
  match fuel with
  | 0 => (s, items, best, infos, total)
  | fuel + 1 =>
      let (s, items, best, progress, infos, total) :=
        innerSweepPass s items 0 best false infos total
      if progress then innerSweep fuel s items best infos total
      else (s, items, best, infos, total)

/-- `PtxEnvironment._handle_conversion_action_method_execution`, embedded
from `src/environment.py` lines 269 to 323.  The outer loop runs the inner
sweep to exhaustion, returns when the pending list has emptied, and
otherwise applies the recorded lowest-deviation candidate and removes it
from the pending list.  Python `list.remove` raises `ValueError` when the
element is no longer present, modelled as `Except.error`; the fuel bounds
the outer iterations, which remove at least one item each when the loop
behaves as intended. -/
def handle_conversion_action_method_execution (fuel : Nat) (s : PtxSystem)
    (items : List (String × ℚ)) (infos : List (String × String))
    (total : Bool) : Except String (List (String × String) × Bool) :=
  match fuel with
  | 0 => Except.error "fuel exhausted"
  | fuel + 1 =>
      if items.isEmpty then Except.ok (infos, total)
      else
        let (s, items, best, infos, total) :=
          innerSweep (items.length + 1) s items none infos total
        if items.isEmpty then Except.ok (infos, total)
        else
          match best with
          | none => Except.error "TypeError: best item is None"
          | some b =>
              let cc := s.getConversion b.item.1
              let (cc, s) := ramp_apply cc b.values s
              let s := s.setConversion b.item.1 cc
              let infos := infos ++ [(b.item.1, b.status)]
              let total := total && b.success
              if b.item ∈ items then
                handle_conversion_action_method_execution fuel s
                  (items.erase b.item) infos total
              else Except.error "ValueError: item not in pending list"

/-- Entry point of the conversion dispatch: the pending list starts as the
whole batch and the outer loop is given enough fuel for one removal per
iteration. -/
def dispatch_conversions (s : PtxSystem) (items : List (String × ℚ)) :
    Except String (List (String × String) × Bool) :=
  handle_conversion_action_method_execution (items.length + 1) s items [] true

/-! Concrete fixtures used by the theorems below. -/

/-- A purchasable and saleable commodity used for the commodity-action
examples. -/
def exCommodity : Commodity :=
  { name := "c", purchase_price := 2, sale_price := 2, available_quantity := 1 }

/-- A system with a small positive balance for the commodity-action
examples. -/
def exSystem : PtxSystem := { balance := 2 }

/-- Conversion fixture for the purity claim: positive variable cost so a
zero-quantity call still converts and debits the ledger. -/
def pureCc : ConversionComponent :=
  { name := "cv", variable_om := 1, fixed_capacity := 10, load := 1/2
    ramp_up := 1/2, ramp_down := 1/2, min_p := 0, max_p := 1
    inputs := [("Electricity", 1)], outputs := [("Hydrogen", 2)]
    main_input := "Electricity", main_output := "Hydrogen" }

/-- System for the purity claim: plenty of input stock and balance. -/
def pureSys : PtxSystem :=
  { balance := 20
    commodities :=
      [("Electricity", { name := "Electricity", available_quantity := 100 }),
       ("Hydrogen", { name := "Hydrogen" })] }

/-- Conversion fixture for the failure-mutation claim: two inputs, the
second one out of stock. -/
def failCc : ConversionComponent :=
  { name := "cv", variable_om := 1, fixed_capacity := 10, load := 1/2
    ramp_up := 1/2, ramp_down := 1/2, min_p := 1/10, max_p := 1
    inputs := [("Electricity", 1), ("Water", 1/2)]
    outputs := [("Hydrogen", 2)]
    main_input := "Electricity", main_output := "Hydrogen" }

/-- System for the failure-mutation claim: the non-main input `Water` has
no stock while the running conversion needs it. -/
def failSys : PtxSystem :=
  { balance := 10
    commodities :=
      [("Electricity", { name := "Electricity", available_quantity := 10 }),
       ("Water", { name := "Water", available_quantity := 0 }),
       ("Hydrogen", { name := "Hydrogen" })] }

/-- Conversion fixture for the `min_p` invariant claim: zero variable cost,
`min_p = 1/10`, current load `1/2`. -/
def minPCc : ConversionComponent :=
  { name := "cv", variable_om := 0, fixed_capacity := 10, load := 1/2
    ramp_up := 1/2, ramp_down := 1/10, min_p := 1/10, max_p := 1
    inputs := [("Electricity", 1), ("Water", 1/2)]
    outputs := [("Hydrogen", 2)]
    main_input := "Electricity", main_output := "Hydrogen" }

/-- System for the `min_p` invariant claim: the non-main input `Water` has
no stock. -/
def minPSys : PtxSystem :=
  { balance := 100
    commodities :=
      [("Electricity", { name := "Electricity", available_quantity := 100 }),
       ("Water", { name := "Water", available_quantity := 0 }),
       ("Hydrogen", { name := "Hydrogen" })] }

/-- Storage fixture of the round-trip claim, discharge side: capacity 4,
half efficiencies, state of charge 3 (the values of the repository's own
storage tests). -/
def rtSc : StorageComponent :=
  { name := "st", variable_om := 1, fixed_capacity := 4
    charging_efficiency := 1/2, discharging_efficiency := 1/2
    ratio_capacity_p := 1/2, min_soc := 1/4, max_soc := 3/4
    stored_commodity := "Electricity", charge_state := 3 }

/-- Storage fixture of the round-trip claim, charge side: state of charge
1 so there is room to charge. -/
def rtScCharge : StorageComponent := { rtSc with charge_state := 1 }

/-- System of the round-trip claim. -/
def rtSys : PtxSystem :=
  { balance := 2
    commodities :=
      [("Electricity", { name := "Electricity", available_quantity := 2 })] }

/-- Storage fixture of the counter-monotonicity claim. -/
def ctrSc : StorageComponent :=
  { name := "st", fixed_capacity := 8, discharging_efficiency := 1/2
    ratio_capacity_p := 1/2, min_soc := 1/4, max_soc := 1
    stored_commodity := "Electricity", charge_state := 6 }

/-- System of the counter-monotonicity claim. -/
def ctrSys : PtxSystem :=
  { balance := 0
    commodities :=
      [("Electricity", { name := "Electricity", available_quantity := 0 })] }

/-- Storage fixture of the zero-action claim. -/
def zeroSc : StorageComponent :=
  { name := "st", fixed_capacity := 4, min_soc := 0, max_soc := 1
    stored_commodity := "Electricity", charge_state := 2 }

/-- System of the zero-action claim. -/
def zeroSys : PtxSystem :=
  { balance := 5
    commodities :=
      [("Electricity", { name := "Electricity", available_quantity := 3 })] }

/-- Generator fixture of the stock-invariant claim: curtailment 2 against
capacity 3. -/
def negGc : GenerationComponent :=
  { name := "gen", variable_om := 1, fixed_capacity := 3, curtailment := 2
    generated_commodity := "Electricity", curtailment_possible := true }

/-- System of the stock-invariant claim: a weather coefficient of 1/3
limits the possible generation to 1, below the standing curtailment. -/
def negSys : PtxSystem :=
  { balance := 10
    commodities :=
      [("Electricity", { name := "Electricity", available_quantity := 1/2 })]
    weather := [("gen", 1/3)] }

/-- Dispatch fixture, conversion `A`: consumes `Water`, produces
`Hydrogen`; at load `1/2` with `Water` short it is clamped in the first
sweep, and becomes exactly completable after `B` runs. -/
def convA : ConversionComponent :=
  { name := "A", fixed_capacity := 1, load := 1/2, ramp_up := 1
    ramp_down := 1, min_p := 0, max_p := 1
    inputs := [("Water", 1)], outputs := [("Hydrogen", 1)]
    main_input := "Water", main_output := "Hydrogen" }

/-- Dispatch fixture, conversion `B`: consumes `Electricity`, produces the
`Water` that `A` is missing; exactly completable at once. -/
def convB : ConversionComponent :=
  { name := "B", fixed_capacity := 1, load := 0, ramp_up := 1
    ramp_down := 1, min_p := 0, max_p := 1
    inputs := [("Electricity", 1)], outputs := [("Water", 1)]
    main_input := "Electricity", main_output := "Water" }

/-- Dispatch fixture, conversion `C`: its request always exceeds its ramp
limit, so it stays inexactly completable with a large deviation. -/
def convC : ConversionComponent :=
  { name := "C", fixed_capacity := 1, load := 0, ramp_up := 1/5
    ramp_down := 1, min_p := 0, max_p := 1
    inputs := [("Electricity", 1)], outputs := [("Hydrogen", 1)]
    main_input := "Electricity", main_output := "Hydrogen" }

/-- System of the dispatch claim: `Water` stock 7/10 initially clamps `A`
(deviation 3/10) until `B` produces one more unit of `Water`. -/
def dispatchSystem : PtxSystem :=
  { balance := 0
    commodities :=
      [("Electricity", { name := "Electricity", available_quantity := 10 }),
       ("Water", { name := "Water", available_quantity := 7/10 }),
       ("Hydrogen", { name := "Hydrogen" })]
    components :=
      [("A", PComponent.conversion convA),
       ("B", PComponent.conversion convB),
       ("C", PComponent.conversion convC)] }

/-- The batch of the dispatch claim: three pending conversion ramp
requests. -/
def dispatchItems : List (String × ℚ) := [("A", 1/2), ("B", 1), ("C", 1)]

/-! Theorems. -/

/-- Helper: the purchase calculate returns the commodity and the system it
was given, whichever branch ran. -/
theorem purchase_commodity_pure (c : Commodity) (q : ℚ) (s : PtxSystem) :
    (c.purchase_commodity q s).commodity = c
      ∧ (c.purchase_commodity q s).system = s := by
  by_cases h : q < 0
  · simp [Commodity.purchase_commodity, h]
  · by_cases h2 : q * c.purchase_price > s.balance
    · simp [Commodity.purchase_commodity, h, h2]
    · simp [Commodity.purchase_commodity, h, h2]

/-- Helper: the sell calculate returns the commodity and the system it was
given, whichever branch ran. -/
theorem sell_commodity_pure (c : Commodity) (q : ℚ) (s : PtxSystem) :
    (c.sell_commodity q s).commodity = c
      ∧ (c.sell_commodity q s).system = s := by
  by_cases h : q < 0
  · simp [Commodity.sell_commodity, h]
  · by_cases h2 : q > c.available_quantity
    · simp [Commodity.sell_commodity, h, h2]
    · simp [Commodity.sell_commodity, h, h2]

/-- Helper: the emit calculate returns the commodity and the system it was
given, whichever branch ran. -/
theorem emit_commodity_pure (c : Commodity) (q : ℚ) (s : PtxSystem) :
    (c.emit_commodity q s).commodity = c
      ∧ (c.emit_commodity q s).system = s := by
  by_cases h : q < 0
  · simp [Commodity.emit_commodity, h]
  · by_cases h2 : q > c.available_quantity
    · simp [Commodity.emit_commodity, h, h2]
    · simp [Commodity.emit_commodity, h, h2]

/-- C10: `PtxSystem.__init__` (which calls `set_initial_balance`) leaves
`previous_balance` unassigned for every choice of constructor arguments,
`set_initial_balance` never assigns it either, and therefore the very
first `next_step` on a freshly constructed system fails with an attribute
error instead of returning the balance delta of the step. -/
theorem previous_balance_unset_on_init (project_name : String)
    (starting_budget : ℚ) (current_step : Nat)
    (commodities : List (String × Commodity))
    (components : List (String × PComponent)) :
    (PtxSystem.init project_name starting_budget current_step commodities
        components).previous_balance = none
    ∧ (∀ (s : PtxSystem) (b : ℚ),
        (s.set_initial_balance b).previous_balance = s.previous_balance)
    ∧ (PtxSystem.init project_name starting_budget current_step commodities
        components).next_step
        = Except.error "AttributeError: PtxSystem object has no attribute" :=
  ⟨rfl, fun _ _ => rfl, rfl⟩

/-- C5 counterexample: the claim states that a negative requested quantity
makes `purchase`, `sell` and `emit` return `succeeded = false`; in the
source all three return `succeeded = true` (with zero candidate values),
shown here at quantity `-1` on a concrete commodity and system. -/
theorem negative_quantity_reports_success :
    (exCommodity.purchase_commodity (-1) exSystem).succeeded = true
    ∧ (exCommodity.sell_commodity (-1) exSystem).succeeded = true
    ∧ (exCommodity.emit_commodity (-1) exSystem).succeeded = true := by
  refine ⟨?_, ?_, ?_⟩ <;> with_unfolding_all decide

/-- C5 amended: for every commodity and every requested quantity `q < 0`,
the calculate operations `purchase(q)`, `sell(q)` and `emit(q)` each
return zero candidate values with `succeeded = true` and
`exact_completion = false`, and leave the commodity and the system
unchanged (a rejected no-op reported as success, not as failure). -/
theorem negative_quantity_noop (c : Commodity) (q : ℚ) (s : PtxSystem)
    (h : q < 0) :
    c.purchase_commodity q s
        = ⟨c, s, (0, 0), "cannot purchase a negative quantity.", true, false⟩
    ∧ c.sell_commodity q s
        = ⟨c, s, (0, 0), "cannot sell a negative quantity.", true, false⟩
    ∧ c.emit_commodity q s
        = ⟨c, s, 0, "cannot emit a negative quantity.", true, false⟩ := by
  refine ⟨?_, ?_, ?_⟩ <;>
    simp [Commodity.purchase_commodity, Commodity.sell_commodity,
      Commodity.emit_commodity, h]

/-- C5 witness: the amended statement applied at quantity `-1` on the
concrete commodity and system. -/
theorem negative_quantity_noop_witness :
    exCommodity.purchase_commodity (-1) exSystem
        = ⟨exCommodity, exSystem, (0, 0),
           "cannot purchase a negative quantity.", true, false⟩
    ∧ exCommodity.sell_commodity (-1) exSystem
        = ⟨exCommodity, exSystem, (0, 0),
           "cannot sell a negative quantity.", true, false⟩
    ∧ exCommodity.emit_commodity (-1) exSystem
        = ⟨exCommodity, exSystem, 0,
           "cannot emit a negative quantity.", true, false⟩ :=
  negative_quantity_noop exCommodity (-1) exSystem (by norm_num)

/-- C2 counterexample: the claim states that the calculate operation of
every action capability is pure; the conversion ramp operation of
`src/ptx/component.py` (the operation the engine invokes for the
conversion capability) debits the ledger, the input stock and the
component in the same call, shown here for a zero-quantity call that
still converts at the standing load: the balance drops from 20 to 15, so
a second identical call starts from a different state. -/
theorem conversion_method_mutates_state :
    (pureCc.ramp_up_or_down 0 pureSys).2.1.balance ≠ pureSys.balance
    ∧ (pureCc.ramp_up_or_down 0 pureSys).2.1.balance = 15
    ∧ ((pureCc.ramp_up_or_down 0 pureSys).2.1.getCommodity
        "Electricity").available_quantity = 95 := by
  refine ⟨?_, ?_, ?_⟩ <;> with_unfolding_all decide

/-- C2 amended: the commodity calculate operations (`purchase`, `sell`,
`emit`) are pure, never mutate the commodity, the system or the ledger,
and calling one twice in succession against the same unmutated state
returns identical candidate values; the conversion ramp of
`src/ptx/component.py` has no separate pure calculate and mutates in the
same call. -/
theorem commodity_calculate_pure_idempotent (c : Commodity) (q : ℚ)
    (s : PtxSystem) :
    ((c.purchase_commodity q s).commodity = c
      ∧ (c.purchase_commodity q s).system = s
      ∧ ((c.purchase_commodity q s).commodity.purchase_commodity q
          (c.purchase_commodity q s).system).values
          = (c.purchase_commodity q s).values)
    ∧ ((c.sell_commodity q s).commodity = c
      ∧ (c.sell_commodity q s).system = s
      ∧ ((c.sell_commodity q s).commodity.sell_commodity q
          (c.sell_commodity q s).system).values
          = (c.sell_commodity q s).values)
    ∧ ((c.emit_commodity q s).commodity = c
      ∧ (c.emit_commodity q s).system = s
      ∧ ((c.emit_commodity q s).commodity.emit_commodity q
          (c.emit_commodity q s).system).values
          = (c.emit_commodity q s).values) := by
  obtain ⟨hp1, hp2⟩ := purchase_commodity_pure c q s
  obtain ⟨hs1, hs2⟩ := sell_commodity_pure c q s
  obtain ⟨he1, he2⟩ := emit_commodity_pure c q s
  exact ⟨⟨hp1, hp2, by rw [hp1, hp2]⟩, ⟨hs1, hs2, by rw [hs1, hs2]⟩,
    ⟨he1, he2, by rw [he1, he2]⟩⟩

/-- C9 counterexample: the claim states that a storage action of exactly
zero is rejected with `succeeded = false`; the source returns early with
`succeeded = true` (a successful no-op), shown on a concrete storage and
system. -/
theorem zero_storage_action_succeeds :
    (zeroSc.charge_or_discharge_quantity 0 zeroSys).2.2.2 = true := by
  with_unfolding_all decide

/-- C9 amended: a storage action of exactly zero returns early with no
state change and `succeeded = true`: it is a successful no-op rather than
an explicit rejection. -/
theorem zero_storage_action_noop (sc : StorageComponent) (s : PtxSystem) :
    sc.charge_or_discharge_quantity 0 s
      = (sc, s, "no quantity charged or discharged.", true) := by
  simp [StorageComponent.charge_or_discharge_quantity]

/-- C3: evaluation of `ConversionComponent.ramp_up_or_down` at a failing
input.  A zero-quantity re-evaluation at load 1/2 needs 5 `Electricity`
and 2.5 `Water`; `Water` has no stock, so the call returns
`succeeded = false` as the claim requires, but it has already debited 5
`Electricity` before failing, contradicting the no-mutation-on-failure
part of the claim (and the method's own promise to fail completely). -/
theorem ramp_failure_mutates_inputs :
    (failCc.ramp_up_or_down 0 failSys).2.2.2 = false
    ∧ (failSys.getCommodity "Electricity").available_quantity = 10
    ∧ ((failCc.ramp_up_or_down 0 failSys).2.1.getCommodity
        "Electricity").available_quantity = 5 := by
  refine ⟨?_, ?_, ?_⟩ <;> with_unfolding_all decide

/-- C4: evaluation of `StorageComponent.charge_or_discharge_quantity` at
the failing input of the claim.  Charging 2 with charging efficiency 1/2
stores 1 as the claim states (charge state 1 to 2), but discharging 1
with discharging efficiency 1/2 removes only 1 raw unit (charge state 3
to 2 instead of 3 to 1) and credits the raw amount 2 to the stock
(available 2 to 4 instead of 2 to 3): the raw and delivered amounts are
swapped in the commit, contradicting the claim, the repository's storage
tests and the method's own docstring. -/
theorem storage_discharge_swaps_raw_and_delivered :
    (rtScCharge.charge_or_discharge_quantity 2 rtSys).1.charge_state = 2
    ∧ (rtSc.charge_or_discharge_quantity (-1) rtSys).1.charge_state = 2
    ∧ ((rtSc.charge_or_discharge_quantity (-1) rtSys).2.1.getCommodity
        "Electricity").available_quantity = 4
    ∧ (rtSc.charge_or_discharge_quantity (-1) rtSys).2.2.2 = true := by
  refine ⟨?_, ?_, ?_, ?_⟩ <;> with_unfolding_all decide

/-- C6: evaluation of `GenerationComponent.apply_or_strip_curtailment` at
a failing input.  With curtailment 2 and a weather-limited possible
generation of 1, a zero-quantity call computes `generated = -1` without
clamping at zero, and the successful apply drives the generated
commodity's stock from 1/2 down to -1/2, breaking the non-negativity
invariant the claim states. -/
theorem curtailment_apply_negative_stock :
    (negSys.getCommodity "Electricity").available_quantity = 1/2
    ∧ (negGc.apply_or_strip_curtailment 0 negSys).2.2.2 = true
    ∧ ((negGc.apply_or_strip_curtailment 0 negSys).2.1.getCommodity
        "Electricity").available_quantity = -(1/2) := by
  refine ⟨?_, ?_, ?_⟩ <;> with_unfolding_all decide

/-- C7: evaluation of `ConversionComponent.ramp_up_or_down` at a failing
input.  Before the call `min_p = 1/10 ≤ load = 1/2 ≤ max_p`; a ramp-up
request of 1/2 whose non-main input `Water` has no stock is adapted by
the input-availability clamp of the ramp-up handler, which has no `min_p`
floor, down to load 0: the call succeeds and leaves the load strictly
below `min_p`, so the invariant is not preserved. -/
theorem ramp_up_breaks_min_p :
    minPCc.min_p ≤ minPCc.load
    ∧ minPCc.load ≤ minPCc.max_p
    ∧ (minPCc.ramp_up_or_down (1/2) minPSys).2.2.2 = true
    ∧ (minPCc.ramp_up_or_down (1/2) minPSys).1.load < minPCc.min_p := by
  refine ⟨?_, ?_, ?_, ?_⟩ <;> with_unfolding_all decide

/-- C8: evaluation of `StorageComponent.charge_or_discharge_quantity` at a
failing input.  The discharge commit adds the negated delivered amount to
the `discharged_quantity` counters of the component and the commodity, so
a successful discharge of 2 delivered units drives both counters from 0
down to -2: the flow counters are not monotonically non-decreasing. -/
theorem storage_discharge_decreases_counter :
    ctrSc.discharged_quantity = 0
    ∧ (ctrSc.charge_or_discharge_quantity (-2) ctrSys).2.2.2 = true
    ∧ (ctrSc.charge_or_discharge_quantity (-2) ctrSys).1.discharged_quantity
        = -2
    ∧ ((ctrSc.charge_or_discharge_quantity (-2) ctrSys).2.1.getCommodity
        "Electricity").discharged_quantity = -2 := by
  refine ⟨?_, ?_, ?_, ?_⟩ <;> with_unfolding_all decide

/-- C1: evaluation of the conversion dispatch loop at a failing batch of
three pending conversion ramp actions.  In the first sweep `A` is clamped
(deviation 3/10) and recorded as the lowest-deviation fallback, `B`
completes exactly and produces the `Water` that `A` was missing; in the
second sweep `A` becomes exactly completable, is applied and removed; `C`
stays clamped with deviation 4/5, so no further progress is made.  The
fallback then applies the stale recorded values of `A` a second time,
emits a second status record for it, and `list.remove` raises
`ValueError` because `A` is no longer pending: the loop neither removes
each action exactly once nor produces exactly one status record per
action, and it terminates by exception. -/
theorem dispatch_loop_stale_best_crash :
    dispatch_conversions dispatchSystem dispatchItems
      = Except.error "ValueError: item not in pending list" := by
  with_unfolding_all rfl

end PtxRL
